import Mathlib

/-
Verification of the AgentTutorial scripts.

The scripts orchestrate calls to a hosted generative model; each call is a
request built from prior results and returns a response envelope whose
`candidates[0].content.parts[0].text` holds a JSON document conforming to a
declared schema.  We embed the model service as an explicit oracle: a function
from the call's content to either a response envelope or a failure
(`TransportError` from the network layer, `SchemaViolation` when the returned
text does not parse against the declared schema).  A response envelope is
modelled by `GenResponse σ`: the raw JSON text of `parts[0].text` together with
its parse under the schema `σ` (so `json.loads(resp.candidates[0].content.parts[0].text)`
in the scripts is rendered as `resp.parsed`).  Confidence scores are modelled
as rationals; the float literal 0.7 of the scripts is 7/10 here.
-/

namespace AgentTutorial

/-- Failure modes of one structured model call: network failure, or the model
output not parsing against the declared schema. -/
inductive ModelError where
  | transportError
  | schemaViolation
deriving DecidableEq

/-- The part of a `generate_content` response envelope the scripts use: the raw
text of `candidates[0].content.parts[0]` and its parse under the schema `σ`. -/
structure GenResponse (σ : Type) where
  text : String
  parsed : σ
deriving DecidableEq

/-- Pydantic serialization of the whole response envelope (what
`response.model_dump_json()` yields on a raw `GenerateContentResponse`): the
JSON of the envelope structure with the part text nested inside, not the bare
schema record.  We keep only the nesting around `parts[0].text`; the real
envelope has further fields, which only makes it differ more from a bare
schema record's serialization. -/
def GenResponse.model_dump_json {σ : Type} (r : GenResponse σ) : String :=
  "\x7b\"candidates\": [\x7b\"content\": \x7b\"parts\": [\x7b\"text\": \"" ++ r.text ++ "\"\x7d]\x7d\x7d]\x7d"

namespace PromptChaining

/-- First LLM call: Extract basic event information (prompt_chaining.py). -/
structure EventExtraction where
  description : String
  is_calendar_event : Bool
  confidence_score : ℚ
deriving DecidableEq

/-- Second LLM call: Parse specific event details (prompt_chaining.py). -/
structure EventDetails where
  name : String
  date : String
  duration_minutes : Int
  participants : List String
deriving DecidableEq

/-- Third LLM call: Generate confirmation message (prompt_chaining.py). -/
structure EventConfirmation where
  confirmation_message : String
  calendar_link : Option String
deriving DecidableEq

/-- Pydantic serialization of an `EventDetails` record
(`event_details.model_dump_json()` on an actual `EventDetails` value). -/
def EventDetails.model_dump_json (e : EventDetails) : String :=
  "\x7b\"name\": \"" ++ e.name ++ "\", \"date\": \"" ++ e.date ++
    "\", \"duration_minutes\": " ++ toString e.duration_minutes ++
    ", \"participants\": [" ++
    String.intercalate ", " (e.participants.map (fun p => "\"" ++ p ++ "\"")) ++ "]\x7d"

/-- The model service as seen by prompt_chaining.py: one oracle per
configured call (extraction, details, confirmation), each a function of the
content text sent to it. -/
structure Oracle where
  extract : String → Except ModelError (GenResponse EventExtraction)
  details : String → Except ModelError (GenResponse EventDetails)
  confirm : String → Except ModelError (GenResponse EventConfirmation)

/-- First LLM call to determine if input is a calendar event.  The function
parses the response for logging and returns the raw response envelope. -/
def extract_event_info (o : Oracle) (user_input : String) :
    Except ModelError (GenResponse EventExtraction) :=
  o.extract user_input

/-- Second LLM call to extract specific event details.  Despite its `->
EventDetails` annotation in the source, it returns the raw response envelope
(`return response`). -/
def parse_event_details (o : Oracle) (description : String) :
    Except ModelError (GenResponse EventDetails) :=
  o.details description

/-- Third LLM call to generate a confirmation message.  Its content is
`event_details.model_dump_json()`; at run time `event_details` is the raw
response envelope returned by `parse_event_details`, so the serialization is
the envelope's. -/
def generate_confirmation (o : Oracle) (event_details : GenResponse EventDetails) :
    Except ModelError (GenResponse EventConfirmation) :=
  o.confirm event_details.model_dump_json

/-- The stages of prompt_chaining.py's `process_calendar_request` after the
gate check: second call on the extraction's description, third call on the
second call's result. -/
def proceed (o : Oracle) (response_json : EventExtraction) :
    Except ModelError (Option (GenResponse EventConfirmation)) := do
  let event_details ← parse_event_details o response_json.description
  let confirmation ← generate_confirmation o event_details
  return some confirmation

/-- Main function implementing the prompt chain with gate check
(prompt_chaining.py `process_calendar_request`). -/
def process_calendar_request (o : Oracle) (user_input : String) :
    Except ModelError (Option (GenResponse EventConfirmation)) := do
  let response ← extract_event_info o user_input
  let response_json := response.parsed
  if !response_json.is_calendar_event
      || decide (response_json.confidence_score < 7/10) then
    return none
  proceed o response_json

end PromptChaining

namespace Routing

/-- Type of calendar request (the `Literal["new_event", "modify_event",
"other"]` field of routing.py's `CalendarRequestType`). -/
inductive RequestType where
  | new_event
  | modify_event
  | other
deriving DecidableEq

/-- Router LLM call: Determine the type of calendar request (routing.py). -/
structure CalendarRequestType where
  request_type : RequestType
  confidence_score : ℚ
  description : String
deriving DecidableEq

/-- Details for creating a new event (routing.py). -/
structure NewEventDetails where
  name : String
  date : String
  duration_minutes : Int
  participants : List String
deriving DecidableEq

/-- Details for changing an existing event (routing.py). -/
structure Change where
  field : String
  new_value : String
deriving DecidableEq

/-- Details for modifying an existing event (routing.py). -/
structure ModifyEventDetails where
  event_identifier : String
  changes : List Change
  participants_to_add : List String
  participants_to_remove : List String
deriving DecidableEq

/-- Final response format (routing.py). -/
structure CalendarResponse where
  success : Bool
  message : String
  calendar_link : Option String
deriving DecidableEq

/-- The model service as seen by routing.py: one oracle per configured call
(router, new-event extraction, modify-event extraction). -/
structure Oracle where
  route : String → Except ModelError (GenResponse CalendarRequestType)
  newEvent : String → Except ModelError (GenResponse NewEventDetails)
  modifyEvent : String → Except ModelError (GenResponse ModifyEventDetails)

/-- Router LLM call to determine the type of calendar request; returns the raw
response envelope. -/
def route_calendar_request (o : Oracle) (user_input : String) :
    Except ModelError (GenResponse CalendarRequestType) :=
  o.route user_input

/-- Process a new event request (routing.py `handle_new_event`). -/
def handle_new_event (o : Oracle) (description : String) :
    Except ModelError CalendarResponse := do
  let response ← o.newEvent description
  let response_json := response.parsed
  return { success := true
           message := "New calendar event '" ++ response_json.name ++
             "' created for " ++ response_json.date ++ " with " ++
             String.intercalate ", " response_json.participants
           calendar_link := some ("calendar://new?event=" ++ response_json.name) }

/-- Process a modify event request (routing.py `handle_modify_event`). -/
def handle_modify_event (o : Oracle) (description : String) :
    Except ModelError CalendarResponse := do
  let response ← o.modifyEvent description
  let response_json := response.parsed
  return { success := true
           message := "Modified calendar event '" ++ response_json.event_identifier ++ "'"
           calendar_link := some ("calendar://modify?event=" ++ response_json.event_identifier) }

/-- The "Route to appropriate handler" branch of routing.py's
`process_calendar_request`. -/
def dispatch (o : Oracle) (result_json : CalendarRequestType) :
    Except ModelError (Option CalendarResponse) :=
  match result_json.request_type with
  | .new_event => (handle_new_event o result_json.description).map some
  | .modify_event => (handle_modify_event o result_json.description).map some
  | .other => return none

/-- Main function implementing the routing workflow (routing.py
`process_calendar_request`): route, confidence gate, dispatch. -/
def process_calendar_request (o : Oracle) (user_input : String) :
    Except ModelError (Option CalendarResponse) := do
  let route_result ← route_calendar_request o user_input
  let result_json := route_result.parsed
  if decide (result_json.confidence_score < 7/10) then
    return none
  dispatch o result_json

end Routing

namespace Parallelization

/-- Check if input is a valid calendar request (parallelization.py). -/
structure CalendarValidation where
  is_calendar_request : Bool
  confidence_score : ℚ
deriving DecidableEq

/-- Check for prompt injection or system manipulation attempts
(parallelization.py). -/
structure SecurityCheck where
  is_safe : Bool
  risk_flags : List String
deriving DecidableEq

/-- The model service as seen by parallelization.py: one oracle per
configured check. -/
structure Oracle where
  calendar : String → Except ModelError (GenResponse CalendarValidation)
  security : String → Except ModelError (GenResponse SecurityCheck)

/-- Check if the input is a valid calendar request; returns the raw response
envelope. -/
def validate_calendar_request (o : Oracle) (user_input : String) :
    Except ModelError (GenResponse CalendarValidation) :=
  o.calendar user_input

/-- Check for potential security risks; returns the raw response envelope. -/
def check_security (o : Oracle) (user_input : String) :
    Except ModelError (GenResponse SecurityCheck) :=
  o.security user_input

/-- Run validation checks in parallel (parallelization.py `validate_request`).
The `asyncio.gather` joins both checks and propagates a failure of either:
the combine step only runs once both checks have completed successfully, and a
failed check aborts the whole validation with that error, never yielding a
boolean. -/
def validate_request (o : Oracle) (user_input : String) :
    Except ModelError Bool := do
  let calendar_check ← validate_calendar_request o user_input
  let security_check ← check_security o user_input
  let calendar_check_json := calendar_check.parsed
  let security_check_json := security_check.parsed
  let is_valid :=
    calendar_check_json.is_calendar_request
      && decide (calendar_check_json.confidence_score > 7/10)
      && security_check_json.is_safe
  return is_valid

/-- An oracle whose two checks succeed with fixed parsed records (texts
irrelevant); used to evaluate `validate_request` on given check results. -/
def constOracle (c : CalendarValidation) (s : SecurityCheck) : Oracle :=
  { calendar := fun _ => .ok ⟨"", c⟩
    security := fun _ => .ok ⟨"", s⟩ }

end Parallelization

namespace ToolCalling

/-- Failure modes of the tool-dispatch layer: an undeclared function name
(the `ValueError` of tool_calling.py's `call_function`), or indexing an empty
`parts` list of a response. -/
inductive ToolError where
  | unknownTool (name : String)
  | indexError
deriving DecidableEq

/-- The two local tools of tool_calling.py.  `get_weather` performs a network
request and `search_kb` reads a local file; both are external collaborators,
so they enter the embedding as opaque callables over an argument type `A`
(the model-supplied `args` mapping) and result type `R`. -/
structure ToolEnv (A R : Type) where
  get_weather : A → R
  search_kb : A → R

/-- Dispatch a model-requested function call by name (tool_calling.py
`call_function`): `get_weather` and `search_kb` go to the matching callable
with the arguments passed through unchanged; any other name raises. -/
def call_function {A R : Type} (env : ToolEnv A R) (name : String) (args : A) :
    Except ToolError R :=
  if name = "get_weather" then .ok (env.get_weather args)
  else if name = "search_kb" then .ok (env.search_kb args)
  else .error (.unknownTool name)

/-- One part of a conversation content: text, a model-issued function call, or
a function response (`types.Part.from_function_response(name, {"result": r})`,
whose wrapped result is carried as `result`). -/
inductive Part (A R : Type) where
  | text (s : String)
  | functionCall (name : String) (args : A)
  | functionResponse (name : String) (result : R)
deriving DecidableEq

/-- The `function_call` accessor of a part: present exactly on function-call
parts. -/
def Part.function_call {A R : Type} : Part A R → Option (String × A)
  | .functionCall name args => some (name, args)
  | _ => none

/-- One turn of the conversation (`types.Content`). -/
structure Content (A R : Type) where
  role : String
  parts : List (Part A R)
deriving DecidableEq

/-- A `generate_content` response as used by tool_calling.py:
`candidates[0].content` and the `.text` accessor. -/
structure ChatResponse (A R : Type) where
  content : Content A R
  text : String
deriving DecidableEq

/-- The model service for the chat variant: a deterministic function of the
conversation sent to it.  Each application is one `run_model` call. -/
def ChatOracle (A R : Type) := List (Content A R) → ChatResponse A R

/-- `candidates[0].content.parts[0]` — fails like the Python indexing when
`parts` is empty. -/
def firstPart {A R : Type} (r : ChatResponse A R) : Except ToolError (Part A R) :=
  match r.content.parts with
  | p :: _ => .ok p
  | [] => .error .indexError

/-- tool_calling.py `gen_final_response`.  One model call; if the response's
first part is a function call, dispatch it, append the model's function-call
content and a user turn with the function response to `contents` (a Python
in-place `append`, rendered as the returned contents list), issue exactly one
more model call, and return that second response's text without inspecting it
for further calls.  Otherwise return the first response's text.  The returned
pair is (result text, the `contents` list as the caller sees it afterwards). -/
def gen_final_response {A R : Type} (oracle : ChatOracle A R)
    (env : ToolEnv A R) (contents : List (Content A R)) :
    Except ToolError (String × List (Content A R)) := do
  let response := oracle contents
  let p0 ← firstPart response
  match p0.function_call with
  | some (name, args) => do
      let result ← call_function env name args
      let function_response_part : Part A R := .functionResponse name result
      let contents := contents ++ [response.content]
      let contents := contents ++ [⟨"user", [function_response_part]⟩]
      let final_response := oracle contents
      return (final_response.text, contents)
  | none => return (response.text, contents)

end ToolCalling

/-! ## Helper lemmas -/

@[simp]
theorem ok_bind {ε α β : Type} (a : α) (f : α → Except ε β) :
    (Except.ok a : Except ε α) >>= f = f a := rfl

@[simp]
theorem error_bind {ε α β : Type} (e : ε) (f : α → Except ε β) :
    (Except.error e : Except ε α) >>= f = Except.error e := rfl

@[simp]
theorem pure_eq_ok {ε α : Type} (a : α) :
    (pure a : Except ε α) = Except.ok a := rfl

/-! ## Claims -/

/-- A routing oracle whose router reports confidence exactly 0.7 on a
new-event request. -/
def routeOracle07 : Routing.Oracle :=
  { route := fun _ => .ok ⟨"", ⟨.new_event, 7/10, "Team sync Tuesday 2pm"⟩⟩
    newEvent := fun _ => .ok ⟨"", ⟨"Team sync", "2026-10-13T14:00", 60, ["Alice", "Bob"]⟩⟩
    modifyEvent := fun _ => .error .transportError }

/-- Claim C1 (counterexample): at confidence exactly 0.7 the routing script's
gate passes — `process_calendar_request` dispatches and returns a result —
whereas the claim requires the gate to reject at the boundary and the pipeline
to return no result. -/
theorem routing_gate_passes_at_boundary :
    Routing.process_calendar_request routeOracle07 "Schedule a team meeting" =
      Except.ok (some
        ⟨true,
         "New calendar event 'Team sync' created for 2026-10-13T14:00 with Alice, Bob",
         some "calendar://new?event=Team sync"⟩)
    ∧ Routing.process_calendar_request routeOracle07 "Schedule a team meeting" ≠
        Except.ok none := by
  have hlt : ¬ ((7/10 : ℚ) < 7/10) := lt_irrefl _
  have h : Routing.process_calendar_request routeOracle07 "Schedule a team meeting" =
      Except.ok (some
        ⟨true,
         "New calendar event 'Team sync' created for 2026-10-13T14:00 with Alice, Bob",
         some "calendar://new?event=Team sync"⟩) := by
    simp [Routing.process_calendar_request, Routing.route_calendar_request,
      routeOracle07, ok_bind, hlt, Routing.dispatch, Routing.handle_new_event]
    rfl
  refine ⟨h, ?_⟩
  rw [h]
  intro hcontra
  exact Option.noConfusion (Except.ok.inj hcontra)

/-- Claim C1 (amended): the gates of the routing and prompt-chaining scripts
reject (return no result) exactly when confidence < 0.7 — so confidence
exactly 0.7 passes them — while the confidence conjunct of the
parallelization script's `validate_request` is strict: it can only report
valid when confidence > 0.7, so 0.7 fails there. -/
theorem confidence_gate_amended :
    (∀ (o : Routing.Oracle) (input : String)
       (r : GenResponse Routing.CalendarRequestType),
        o.route input = .ok r →
        (r.parsed.confidence_score < 7/10 →
            Routing.process_calendar_request o input = .ok none)
        ∧ (7/10 ≤ r.parsed.confidence_score →
            Routing.process_calendar_request o input = Routing.dispatch o r.parsed))
    ∧ (∀ (o : PromptChaining.Oracle) (input : String)
         (r : GenResponse PromptChaining.EventExtraction),
        o.extract input = .ok r →
        (r.parsed.confidence_score < 7/10 →
            PromptChaining.process_calendar_request o input = .ok none)
        ∧ (r.parsed.is_calendar_event = true → 7/10 ≤ r.parsed.confidence_score →
            PromptChaining.process_calendar_request o input =
              PromptChaining.proceed o r.parsed))
    ∧ (∀ (c : Parallelization.CalendarValidation) (s : Parallelization.SecurityCheck)
         (input : String),
        Parallelization.validate_request (Parallelization.constOracle c s) input =
          Except.ok true →
        7/10 < c.confidence_score) := by
  refine ⟨?_, ?_, ?_⟩
  · intro o input r hroute
    constructor
    · intro hlt
      simp [Routing.process_calendar_request, Routing.route_calendar_request,
        hroute, ok_bind, hlt]
    · intro hge
      simp [Routing.process_calendar_request, Routing.route_calendar_request,
        hroute, ok_bind, not_lt.mpr hge]
  · intro o input r hex
    constructor
    · intro hlt
      simp [PromptChaining.process_calendar_request, PromptChaining.extract_event_info,
        hex, ok_bind, hlt]
    · intro hcal hge
      simp [PromptChaining.process_calendar_request, PromptChaining.extract_event_info,
        hex, ok_bind, hcal, not_lt.mpr hge]
  · intro c s input hvalid
    have h : Parallelization.validate_request (Parallelization.constOracle c s) input =
        Except.ok (c.is_calendar_request
          && decide (c.confidence_score > 7/10) && s.is_safe) := rfl
    rw [h] at hvalid
    have hb := Except.ok.inj hvalid
    simp only [Bool.and_eq_true, decide_eq_true_eq] at hb
    exact hb.1.2

/-- Claim C1 (witness): at confidence exactly 0.7 the routing pipeline reduces
to its dispatch step (the gate does not reject). -/
theorem confidence_gate_amended_witness :
    Routing.process_calendar_request routeOracle07 "Schedule a team meeting" =
      Routing.dispatch routeOracle07 ⟨.new_event, 7/10, "Team sync Tuesday 2pm"⟩ :=
  (confidence_gate_amended.1 routeOracle07 "Schedule a team meeting"
    ⟨"", ⟨.new_event, 7/10, "Team sync Tuesday 2pm"⟩⟩ rfl).2 (by norm_num)

/-- Claim C2: `validate_request` returns the conjunction
`is_calendar_request && confidence_score > 0.7 && is_safe` of the two parsed
check results, and with the other two inputs held at passing values, flipping
any single one of the three inputs flips the combined result. -/
theorem validate_request_is_conjunction :
    ∀ (c : Parallelization.CalendarValidation) (s : Parallelization.SecurityCheck)
      (input : String),
    Parallelization.validate_request (Parallelization.constOracle c s) input =
      Except.ok (c.is_calendar_request
        && decide (c.confidence_score > 7/10) && s.is_safe)
    ∧ (c.is_calendar_request = true → 7/10 < c.confidence_score → s.is_safe = true →
        Parallelization.validate_request (Parallelization.constOracle c s) input =
          Except.ok true
        ∧ Parallelization.validate_request
            (Parallelization.constOracle { c with is_calendar_request := false } s) input =
          Except.ok false
        ∧ (∀ q : ℚ, q ≤ 7/10 →
            Parallelization.validate_request
              (Parallelization.constOracle { c with confidence_score := q } s) input =
              Except.ok false)
        ∧ Parallelization.validate_request
            (Parallelization.constOracle c { s with is_safe := false }) input =
          Except.ok false) := by
  intro c s input
  have key : ∀ (c' : Parallelization.CalendarValidation)
      (s' : Parallelization.SecurityCheck),
      Parallelization.validate_request (Parallelization.constOracle c' s') input =
        Except.ok (c'.is_calendar_request
          && decide (c'.confidence_score > 7/10) && s'.is_safe) := fun _ _ => rfl
  refine ⟨key c s, fun hc hq hs => ⟨?_, ?_, ?_, ?_⟩⟩
  · rw [key]; simp [hc, hq, hs]
  · rw [key]; simp
  · intro q hqle
    rw [key]; simp [not_lt.mpr hqle]
  · rw [key]; simp

/-- Claim C2 (witness): on the spec's mocked results — calendar check
`(true, 0.95)`, security check `(true, [])` — validation passes, and flipping
any one input makes it fail. -/
theorem validate_request_is_conjunction_witness :
    Parallelization.validate_request
      (Parallelization.constOracle ⟨true, 95/100⟩ ⟨true, []⟩)
      "Schedule a team meeting tomorrow at 2pm" = Except.ok true
    ∧ Parallelization.validate_request
      (Parallelization.constOracle ⟨false, 95/100⟩ ⟨true, []⟩)
      "Schedule a team meeting tomorrow at 2pm" = Except.ok false
    ∧ Parallelization.validate_request
      (Parallelization.constOracle ⟨true, 95/100⟩ ⟨false, ["prompt_injection"]⟩)
      "Schedule a team meeting tomorrow at 2pm" = Except.ok false := by
  have h := (validate_request_is_conjunction ⟨true, 95/100⟩ ⟨true, []⟩
    "Schedule a team meeting tomorrow at 2pm").2 rfl (by norm_num) rfl
  have h' := (validate_request_is_conjunction ⟨true, 95/100⟩
    ⟨false, ["prompt_injection"]⟩
    "Schedule a team meeting tomorrow at 2pm").1
  refine ⟨h.1, h.2.1, ?_⟩
  rw [h']; simp

/-- Claim C3: when the router's request type is outside the supported handler
set (`other`) and the confidence gate passes, the routing pipeline returns
no result (`none`) rather than an error. -/
theorem router_unsupported_returns_none :
    ∀ (o : Routing.Oracle) (input : String)
      (r : GenResponse Routing.CalendarRequestType),
      o.route input = .ok r →
      r.parsed.request_type = .other →
      ¬ r.parsed.confidence_score < 7/10 →
      Routing.process_calendar_request o input = Except.ok none := by
  intro o input r hroute hother hge
  simp [Routing.process_calendar_request, Routing.route_calendar_request,
    hroute, ok_bind, hge, Routing.dispatch, hother]

/-- Claim C3 (witness): a router result of type `other` with confidence 0.9
yields `none` despite passing the confidence gate. -/
theorem router_unsupported_returns_none_witness :
    Routing.process_calendar_request
      { route := fun _ => .ok ⟨"", ⟨.other, 9/10, "weather question"⟩⟩
        newEvent := fun _ => .error .transportError
        modifyEvent := fun _ => .error .transportError }
      "What is the weather like today?" = Except.ok none :=
  router_unsupported_returns_none _ "What is the weather like today?"
    ⟨"", ⟨.other, 9/10, "weather question"⟩⟩ rfl rfl (by norm_num)

theorem handle_new_event_success (o : Routing.Oracle) (d : String)
    (resp : Routing.CalendarResponse)
    (h : Routing.handle_new_event o d = Except.ok resp) : resp.success = true := by
  unfold Routing.handle_new_event at h
  cases hne : o.newEvent d with
  | error e => rw [hne, error_bind] at h; exact Except.noConfusion h
  | ok g =>
      rw [hne, ok_bind] at h
      simp only [pure_eq_ok, Except.ok.injEq] at h
      rw [← h]

theorem handle_modify_event_success (o : Routing.Oracle) (d : String)
    (resp : Routing.CalendarResponse)
    (h : Routing.handle_modify_event o d = Except.ok resp) : resp.success = true := by
  unfold Routing.handle_modify_event at h
  cases hme : o.modifyEvent d with
  | error e => rw [hme, error_bind] at h; exact Except.noConfusion h
  | ok g =>
      rw [hme, ok_bind] at h
      simp only [pure_eq_ok, Except.ok.injEq] at h
      rw [← h]

/-- Claim C10: both routing handlers always build a response with
`success = true`, so every non-`none` result of the routing pipeline has
`success = true` — the flag never encodes a failure. -/
theorem routing_success_always_true :
    (∀ (o : Routing.Oracle) (d : String) (resp : Routing.CalendarResponse),
        Routing.handle_new_event o d = Except.ok resp → resp.success = true)
    ∧ (∀ (o : Routing.Oracle) (d : String) (resp : Routing.CalendarResponse),
        Routing.handle_modify_event o d = Except.ok resp → resp.success = true)
    ∧ (∀ (o : Routing.Oracle) (input : String) (resp : Routing.CalendarResponse),
        Routing.process_calendar_request o input = Except.ok (some resp) →
        resp.success = true) := by
  refine ⟨handle_new_event_success, handle_modify_event_success, ?_⟩
  intro o input resp h
  unfold Routing.process_calendar_request Routing.route_calendar_request at h
  cases hr : o.route input with
  | error e => rw [hr, error_bind] at h; exact Except.noConfusion h
  | ok r =>
      rw [hr, ok_bind] at h
      by_cases hlt : r.parsed.confidence_score < 7/10
      · simp [hlt] at h
      · simp only [hlt, decide_False, Bool.false_eq_true, if_false, pure_eq_ok,
          ok_bind] at h
        unfold Routing.dispatch at h
        cases hty : r.parsed.request_type with
        | new_event =>
            rw [hty] at h
            cases hne : Routing.handle_new_event o r.parsed.description with
            | error e => rw [hne] at h; exact Except.noConfusion h
            | ok g =>
                rw [hne] at h
                simp only [Except.map, Except.ok.injEq, Option.some.injEq] at h
                exact h ▸ handle_new_event_success o r.parsed.description g hne
        | modify_event =>
            rw [hty] at h
            cases hme : Routing.handle_modify_event o r.parsed.description with
            | error e => rw [hme] at h; exact Except.noConfusion h
            | ok g =>
                rw [hme] at h
                simp only [Except.map, Except.ok.injEq, Option.some.injEq] at h
                exact h ▸ handle_modify_event_success o r.parsed.description g hme
        | other =>
            rw [hty] at h
            simp only [pure_eq_ok, Except.ok.injEq] at h
            exact Option.noConfusion h

/-- Claim C10 (witness): a pipeline run that dispatches to the new-event
handler yields a response with `success = true`. -/
theorem routing_success_always_true_witness :
    ∃ resp : Routing.CalendarResponse,
      Routing.process_calendar_request
        { route := fun _ => .ok ⟨"", ⟨.new_event, 9/10, "team meeting"⟩⟩
          newEvent := fun _ => .ok ⟨"", ⟨"Team meeting", "2026-10-14T14:00", 30, ["Alice"]⟩⟩
          modifyEvent := fun _ => .error .transportError }
        "Schedule a team meeting" = Except.ok (some resp)
      ∧ resp.success = true := by
  refine ⟨⟨true, "New calendar event 'Team meeting' created for 2026-10-14T14:00 with Alice",
    some "calendar://new?event=Team meeting"⟩, ?_, ?_⟩
  · have hlt : ¬ ((9/10 : ℚ) < 7/10) := by norm_num
    simp [Routing.process_calendar_request, Routing.route_calendar_request,
      ok_bind, hlt, Routing.dispatch, Routing.handle_new_event]
    rfl
  · exact routing_success_always_true.2.2
      { route := fun _ => .ok ⟨"", ⟨.new_event, 9/10, "team meeting"⟩⟩
        newEvent := fun _ => .ok ⟨"", ⟨"Team meeting", "2026-10-14T14:00", 30, ["Alice"]⟩⟩
        modifyEvent := fun _ => .error .transportError }
      "Schedule a team meeting" _
      (by
        have hlt : ¬ ((9/10 : ℚ) < 7/10) := by norm_num
        simp [Routing.process_calendar_request, Routing.route_calendar_request,
          ok_bind, hlt, Routing.dispatch, Routing.handle_new_event]
        rfl)

/-- Claim C7: a failure of any structured model call in the prompt chain
aborts `process_calendar_request` with that error — nothing produced by
earlier stages is returned. -/
theorem chain_failure_aborts :
    ∀ (o : PromptChaining.Oracle) (input : String) (e : ModelError),
      (o.extract input = Except.error e →
        PromptChaining.process_calendar_request o input = Except.error e)
      ∧ (∀ r : GenResponse PromptChaining.EventExtraction,
          o.extract input = Except.ok r →
          r.parsed.is_calendar_event = true →
          ¬ r.parsed.confidence_score < 7/10 →
          o.details r.parsed.description = Except.error e →
          PromptChaining.process_calendar_request o input = Except.error e)
      ∧ (∀ (r : GenResponse PromptChaining.EventExtraction)
           (d : GenResponse PromptChaining.EventDetails),
          o.extract input = Except.ok r →
          r.parsed.is_calendar_event = true →
          ¬ r.parsed.confidence_score < 7/10 →
          o.details r.parsed.description = Except.ok d →
          o.confirm d.model_dump_json = Except.error e →
          PromptChaining.process_calendar_request o input = Except.error e) := by
  intro o input e
  refine ⟨?_, ?_, ?_⟩
  · intro hex
    simp [PromptChaining.process_calendar_request, PromptChaining.extract_event_info,
      hex, error_bind]
  · intro r hex hcal hnlt hdet
    simp [PromptChaining.process_calendar_request, PromptChaining.extract_event_info,
      hex, ok_bind, hcal, hnlt, PromptChaining.proceed,
      PromptChaining.parse_event_details, hdet, error_bind]
  · intro r d hex hcal hnlt hdet hconf
    simp [PromptChaining.process_calendar_request, PromptChaining.extract_event_info,
      hex, ok_bind, hcal, hnlt, PromptChaining.proceed,
      PromptChaining.parse_event_details, hdet,
      PromptChaining.generate_confirmation, hconf, error_bind]

/-- Claim C7 (witness): with the terminal confirmation call failing with a
transport error, the whole chain aborts with that error. -/
theorem chain_failure_aborts_witness :
    PromptChaining.process_calendar_request
      { extract := fun _ => .ok ⟨"", ⟨"Dentist Friday 8:30", true, 9/10⟩⟩
        details := fun _ => .ok ⟨"", ⟨"Dentist", "2026-10-16T08:30", 90, []⟩⟩
        confirm := fun _ => .error .transportError }
      "Dentist appointment next Friday" = Except.error ModelError.transportError :=
  (chain_failure_aborts
      { extract := fun _ => .ok ⟨"", ⟨"Dentist Friday 8:30", true, 9/10⟩⟩
        details := fun _ => .ok ⟨"", ⟨"Dentist", "2026-10-16T08:30", 90, []⟩⟩
        confirm := fun _ => .error .transportError }
      "Dentist appointment next Friday" ModelError.transportError).2.2
    ⟨"", ⟨"Dentist Friday 8:30", true, 9/10⟩⟩
    ⟨"", ⟨"Dentist", "2026-10-16T08:30", 90, []⟩⟩
    rfl rfl (by norm_num) rfl rfl

/-- Claim C8: if either of the Validator's two checks fails,
`validate_request` fails with that error and returns no boolean; the combined
boolean is computed only from both completed checks. -/
theorem validation_failure_propagates :
    ∀ (o : Parallelization.Oracle) (input : String) (e : ModelError),
      (o.calendar input = Except.error e →
        Parallelization.validate_request o input = Except.error e)
      ∧ (∀ c : GenResponse Parallelization.CalendarValidation,
          o.calendar input = Except.ok c →
          o.security input = Except.error e →
          Parallelization.validate_request o input = Except.error e)
      ∧ (∀ (c : GenResponse Parallelization.CalendarValidation)
           (s : GenResponse Parallelization.SecurityCheck),
          o.calendar input = Except.ok c →
          o.security input = Except.ok s →
          Parallelization.validate_request o input =
            Except.ok (c.parsed.is_calendar_request
              && decide (c.parsed.confidence_score > 7/10)
              && s.parsed.is_safe)) := by
  intro o input e
  refine ⟨?_, ?_, ?_⟩
  · intro hcal
    simp [Parallelization.validate_request, Parallelization.validate_calendar_request,
      hcal, error_bind]
  · intro c hcal hsec
    simp [Parallelization.validate_request, Parallelization.validate_calendar_request,
      Parallelization.check_security, hcal, ok_bind, hsec, error_bind]
  · intro c s hcal hsec
    simp [Parallelization.validate_request, Parallelization.validate_calendar_request,
      Parallelization.check_security, hcal, ok_bind, hsec]

/-- Claim C8 (witness): with the security check failing on the network, the
whole validation fails with a transport error even though the calendar check
succeeded. -/
theorem validation_failure_propagates_witness :
    Parallelization.validate_request
      { calendar := fun _ => .ok ⟨"", ⟨true, 95/100⟩⟩
        security := fun _ => .error .transportError }
      "Schedule a team meeting tomorrow at 2pm" =
      Except.error ModelError.transportError :=
  (validation_failure_propagates
      { calendar := fun _ => .ok ⟨"", ⟨true, 95/100⟩⟩
        security := fun _ => .error .transportError }
      "Schedule a team meeting tomorrow at 2pm" ModelError.transportError).2.1
    ⟨"", ⟨true, 95/100⟩⟩ rfl rfl

/-- Claim C4: `gen_final_response` performs at most one round of tool
invocation: when the first response's first part is a function call, the tool
is dispatched, the model's function-call content and a user turn carrying the
function response are appended, exactly one further model call is made on the
extended conversation and its text is returned as is (it is not inspected for
further function calls); otherwise the first response's text is returned
directly. -/
theorem gen_final_response_one_round :
    ∀ (A R : Type) (oracle : ToolCalling.ChatOracle A R)
      (env : ToolCalling.ToolEnv A R)
      (contents : List (ToolCalling.Content A R))
      (p : ToolCalling.Part A R) (l : List (ToolCalling.Part A R)),
      (oracle contents).content.parts = p :: l →
      ((∀ (name : String) (args : A) (res : R),
          p.function_call = some (name, args) →
          ToolCalling.call_function env name args = Except.ok res →
          ToolCalling.gen_final_response oracle env contents =
            Except.ok
              ((oracle (contents ++ [(oracle contents).content,
                  ⟨"user", [ToolCalling.Part.functionResponse name res]⟩])).text,
               contents ++ [(oracle contents).content,
                  ⟨"user", [ToolCalling.Part.functionResponse name res]⟩]))
        ∧ (p.function_call = none →
            ToolCalling.gen_final_response oracle env contents =
              Except.ok ((oracle contents).text, contents))) := by
  intro A R oracle env contents p l hparts
  constructor
  · intro name args res hfc hcf
    simp [ToolCalling.gen_final_response, ToolCalling.firstPart, hparts, hfc, hcf]
  · intro hfc
    simp [ToolCalling.gen_final_response, ToolCalling.firstPart, hparts, hfc]

/-- A chat oracle whose first response requests the weather tool and whose
second response requests yet another tool call while carrying a final text. -/
def chatOracleTwoCalls : ToolCalling.ChatOracle Unit Unit := fun contents =>
  if contents.length ≤ 1 then
    ⟨⟨"model", [.functionCall "get_weather" ()]⟩, "requesting the weather tool"⟩
  else ⟨⟨"model", [.functionCall "search_kb" ()]⟩, "The weather in London is 15C"⟩

/-- Claim C4 (witness): after the one tool round, the second response's text
is returned even though that response requests another function call. -/
theorem gen_final_response_one_round_witness :
    ToolCalling.gen_final_response chatOracleTwoCalls ⟨fun _ => (), fun _ => ()⟩
      [⟨"user", [.text "What is the weather like in London?"]⟩] =
      Except.ok ("The weather in London is 15C",
        [⟨"user", [.text "What is the weather like in London?"]⟩,
         ⟨"model", [.functionCall "get_weather" ()]⟩,
         ⟨"user", [.functionResponse "get_weather" ()]⟩]) :=
  (gen_final_response_one_round Unit Unit chatOracleTwoCalls ⟨fun _ => (), fun _ => ()⟩
      [⟨"user", [.text "What is the weather like in London?"]⟩]
      (.functionCall "get_weather" ()) [] rfl).1 "get_weather" () () rfl rfl

/-- Claim C6: `call_function` fails (with the unknown-tool error) exactly on
names outside the declared set `{get_weather, search_kb}`; declared names are
dispatched to the matching callable with the arguments passed through
unchanged and its result returned. -/
theorem call_function_dispatch :
    ∀ (A R : Type) (env : ToolCalling.ToolEnv A R) (name : String) (args : A),
      ((∃ e, ToolCalling.call_function env name args = Except.error e) ↔
        (name ≠ "get_weather" ∧ name ≠ "search_kb"))
      ∧ ToolCalling.call_function env "get_weather" args =
          Except.ok (env.get_weather args)
      ∧ ToolCalling.call_function env "search_kb" args =
          Except.ok (env.search_kb args)
      ∧ (name ≠ "get_weather" → name ≠ "search_kb" →
          ToolCalling.call_function env name args =
            Except.error (ToolCalling.ToolError.unknownTool name)) := by
  intro A R env name args
  have hgw : ∀ n, n = "get_weather" →
      ToolCalling.call_function env n args = Except.ok (env.get_weather args) := by
    intro n hn
    simp [ToolCalling.call_function, hn]
  have hkb : ∀ n, n = "search_kb" →
      ToolCalling.call_function env n args = Except.ok (env.search_kb args) := by
    intro n hn
    simp [ToolCalling.call_function, hn]
  have hun : name ≠ "get_weather" → name ≠ "search_kb" →
      ToolCalling.call_function env name args =
        Except.error (ToolCalling.ToolError.unknownTool name) := by
    intro h1 h2
    unfold ToolCalling.call_function
    rw [if_neg h1, if_neg h2]
  refine ⟨⟨?_, ?_⟩, hgw _ rfl, hkb _ rfl, hun⟩
  · rintro ⟨e, he⟩
    by_cases h1 : name = "get_weather"
    · rw [hgw name h1] at he; exact absurd he (by simp)
    · by_cases h2 : name = "search_kb"
      · rw [hkb name h2] at he; exact absurd he (by simp)
      · exact ⟨h1, h2⟩
  · rintro ⟨h1, h2⟩
    exact ⟨_, hun h1 h2⟩

/-- Claim C6 (witness): the undeclared name `frobnicate` is rejected with the
unknown-tool error, while the declared names dispatch to their callables. -/
theorem call_function_dispatch_witness :
    ToolCalling.call_function (⟨fun _ => 1, fun _ => 2⟩ : ToolCalling.ToolEnv Unit Nat)
      "frobnicate" () =
      Except.error (ToolCalling.ToolError.unknownTool "frobnicate")
    ∧ ToolCalling.call_function (⟨fun _ => 1, fun _ => 2⟩ : ToolCalling.ToolEnv Unit Nat)
      "get_weather" () = Except.ok 1
    ∧ ToolCalling.call_function (⟨fun _ => 1, fun _ => 2⟩ : ToolCalling.ToolEnv Unit Nat)
      "search_kb" () = Except.ok 2 :=
  ⟨(call_function_dispatch Unit Nat ⟨fun _ => 1, fun _ => 2⟩ "frobnicate" ()).2.2.2
      (by decide) (by decide),
   (call_function_dispatch Unit Nat ⟨fun _ => 1, fun _ => 2⟩ "frobnicate" ()).2.1,
   (call_function_dispatch Unit Nat ⟨fun _ => 1, fun _ => 2⟩ "frobnicate" ()).2.2.1⟩

/-- A chat oracle whose first response requests the weather tool and whose
second response is a direct text answer. -/
def chatOracleFC : ToolCalling.ChatOracle Unit Unit := fun contents =>
  if contents.length ≤ 1 then
    ⟨⟨"model", [.functionCall "get_weather" ()]⟩, "calling the weather tool"⟩
  else ⟨⟨"model", [.text "The weather is 15C"]⟩, "The weather is 15C"⟩

/-- Claim C9 (counterexample): when the first response requests a function
call, `gen_final_response` does not leave the caller's contents list
unchanged — it comes back with the model's function-call turn and the
function-response turn appended. -/
theorem gen_final_response_mutates_contents :
    ToolCalling.gen_final_response chatOracleFC ⟨fun _ => (), fun _ => ()⟩
      [⟨"user", [.text "weather?"]⟩] =
      Except.ok ("The weather is 15C",
        [⟨"user", [.text "weather?"]⟩,
         ⟨"model", [.functionCall "get_weather" ()]⟩,
         ⟨"user", [.functionResponse "get_weather" ()]⟩])
    ∧ ([⟨"user", [.text "weather?"]⟩,
         ⟨"model", [.functionCall "get_weather" ()]⟩,
         ⟨"user", [.functionResponse "get_weather" ()]⟩] :
          List (ToolCalling.Content Unit Unit)) ≠
        [⟨"user", [.text "weather?"]⟩] := by
  constructor
  · rfl
  · decide

/-- Claim C9 (amended): `gen_final_response` leaves the caller's contents list
unchanged only in the direct-answer branch; in the function-call branch the
list the caller sees afterwards is the original with exactly the model's
function-call turn and the function-response turn appended.  (Across separate
pipeline runs nothing is shared, as each run builds a fresh list.) -/
theorem gen_final_response_contents_effect :
    ∀ (A R : Type) (oracle : ToolCalling.ChatOracle A R)
      (env : ToolCalling.ToolEnv A R)
      (contents : List (ToolCalling.Content A R))
      (p : ToolCalling.Part A R) (l : List (ToolCalling.Part A R)),
      (oracle contents).content.parts = p :: l →
      ((p.function_call = none →
          (ToolCalling.gen_final_response oracle env contents).map Prod.snd =
            Except.ok contents)
        ∧ (∀ (name : String) (args : A) (res : R),
            p.function_call = some (name, args) →
            ToolCalling.call_function env name args = Except.ok res →
            (ToolCalling.gen_final_response oracle env contents).map Prod.snd =
              Except.ok (contents ++ [(oracle contents).content,
                ⟨"user", [ToolCalling.Part.functionResponse name res]⟩]))) := by
  intro A R oracle env contents p l hparts
  constructor
  · intro hfc
    simp [ToolCalling.gen_final_response, ToolCalling.firstPart, hparts, hfc,
      Except.map]
  · intro name args res hfc hcf
    simp [ToolCalling.gen_final_response, ToolCalling.firstPart, hparts, hfc, hcf,
      Except.map]

/-- Claim C9 (amended, witness): the concrete run grows the caller's list by
the two tool-round turns. -/
theorem gen_final_response_contents_effect_witness :
    (ToolCalling.gen_final_response chatOracleFC ⟨fun _ => (), fun _ => ()⟩
      [⟨"user", [.text "weather?"]⟩]).map Prod.snd =
      Except.ok
        [⟨"user", [.text "weather?"]⟩,
         ⟨"model", [.functionCall "get_weather" ()]⟩,
         ⟨"user", [.functionResponse "get_weather" ()]⟩] :=
  (gen_final_response_contents_effect Unit Unit chatOracleFC ⟨fun _ => (), fun _ => ()⟩
      [⟨"user", [.text "weather?"]⟩]
      (.functionCall "get_weather" ()) [] rfl).2 "get_weather" () () rfl rfl

/-- The `EventDetails` record of the second chain stage in the claim-C5
scenario. -/
def detailsRecord : PromptChaining.EventDetails :=
  ⟨"Dentist appointment", "2026-10-16T08:30", 90, ["Rob"]⟩

/-- A prompt-chaining oracle for the claim-C5 scenario: the extraction passes
the gate, the details call returns an envelope whose text is the JSON of
`detailsRecord`, and the confirmation call echoes the content it is sent back
as its response text, exposing what the chain fed it. -/
def chainOracleEcho : PromptChaining.Oracle :=
  { extract := fun _ => .ok ⟨"", ⟨"Dentist appointment next Friday 8:30", true, 9/10⟩⟩
    details := fun _ => .ok ⟨detailsRecord.model_dump_json, detailsRecord⟩
    confirm := fun content => .ok ⟨content, ⟨"Your event is booked. Susie", none⟩⟩ }

/-- Claim C5: the second chain call consumes the extraction's `description`
field, but the terminal confirmation call's content is the pydantic
serialization of the raw response envelope returned by `parse_event_details`
(`return response`), not of the structured `EventDetails` record, contradicting
the source's own `-> EventDetails` annotation; the echoing oracle exposes the
envelope serialization as the confirmation content. -/
theorem confirmation_content_is_envelope :
    PromptChaining.process_calendar_request chainOracleEcho
      "Dentist appointment next Friday" =
      Except.ok (some
        ⟨(GenResponse.mk detailsRecord.model_dump_json detailsRecord).model_dump_json,
         ⟨"Your event is booked. Susie", none⟩⟩)
    ∧ (GenResponse.mk detailsRecord.model_dump_json detailsRecord).model_dump_json ≠
        detailsRecord.model_dump_json := by
  constructor
  · have hlt : ¬ ((9/10 : ℚ) < 7/10) := by norm_num
    simp [PromptChaining.process_calendar_request, PromptChaining.extract_event_info,
      chainOracleEcho, hlt, PromptChaining.proceed, PromptChaining.parse_event_details,
      PromptChaining.generate_confirmation]
  · decide

end AgentTutorial
